import Mathlib

/-!
Verification of the Chatterbox-TTS interactive installer
(`ChatterboxInstaller.py`) against its specification.

The installer is a sequential, menu-driven orchestration script.  We embed
its data model (asset manifests) and the pure control-flow skeleton of its
operations (input loop, supplied-asset validation, venv ensure/re-exec,
pip install with retry, asset download/copy) as Lean functions.  Effects
(subprocess calls, network fetches, file copies) are represented by
explicit action lists or oracles describing the environment's responses;
exceptions are represented by `Except`.
-/

/-! ## Asset manifest (ChatterboxInstaller.py lines 22-48) -/

/-- `ORIGINAL_FILES` (lines 22-27): download locators for the Standard variant. -/
def ORIGINAL_FILES : List String := [
  "https://huggingface.co/ResembleAI/chatterbox/resolve/main/t3_cfg.safetensors?download=true",
  "https://huggingface.co/ResembleAI/chatterbox/resolve/main/s3gen.safetensors?download=true",
  "https://huggingface.co/ResembleAI/chatterbox/resolve/main/tokenizer.json?download=true",
  "https://huggingface.co/ResembleAI/chatterbox/resolve/main/ve.safetensors?download=true"
]

/-- `TURBO_FILES` (lines 29-41): download locators for the Turbo variant. -/
def TURBO_FILES : List String := [
  "https://huggingface.co/ResembleAI/chatterbox-turbo/resolve/main/s3gen.safetensors?download=true",
  "https://huggingface.co/ResembleAI/chatterbox-turbo/resolve/main/conds.pt?download=true",
  "https://huggingface.co/ResembleAI/chatterbox-turbo/resolve/main/added_tokens.json?download=true",
  "https://huggingface.co/ResembleAI/chatterbox-turbo/resolve/main/s3gen_meanflow.safetensors?download=true",
  "https://huggingface.co/ResembleAI/chatterbox-turbo/resolve/main/special_tokens_map.json?download=true",
  "https://huggingface.co/ResembleAI/chatterbox-turbo/resolve/main/t3_turbo_v1.safetensors?download=true",
  "https://huggingface.co/ResembleAI/chatterbox-turbo/resolve/main/t3_turbo_v1.yaml?download=true",
  "https://huggingface.co/ResembleAI/chatterbox-turbo/resolve/main/tokenizer_config.json?download=true",
  "https://huggingface.co/ResembleAI/chatterbox-turbo/resolve/main/ve.safetensors?download=true",
  "https://huggingface.co/ResembleAI/chatterbox-turbo/resolve/main/vocab.json?download=true",
  "https://huggingface.co/ResembleAI/chatterbox-turbo/resolve/main/merges.txt?download=true"
]

/-- `ORIGINAL_EXPECTED` (line 43): expected local filenames, Standard variant. -/
def ORIGINAL_EXPECTED : List String :=
  ["t3_cfg.safetensors", "s3gen.safetensors", "tokenizer.json", "ve.safetensors"]

/-- `TURBO_EXPECTED` (lines 44-48): expected local filenames, Turbo variant. -/
def TURBO_EXPECTED : List String := [
  "added_tokens.json", "conds.pt", "merges.txt", "s3gen.safetensors",
  "s3gen_meanflow.safetensors", "special_tokens_map.json", "t3_turbo_v1.safetensors",
  "t3_turbo_v1.yaml", "tokenizer_config.json", "ve.safetensors", "vocab.json"
]

/-! ## Filename derivation (lines 101 and 378)

Python: `filename = url.split('/')[-1].split('?')[0]`.  We embed Python's
`str.split` with a one-character separator as a structural recursion over
the character list (`str.split` on a separator never returns an empty
list, and returns `[""]` on the empty string, which the embedding
reproduces). -/

/-- Python `s.split(c)` for a single-character separator `c`. -/
def splitOnChar (c : Char) : List Char → List (List Char)
  | [] => [[]]
  | x :: xs =>
    let rest := splitOnChar c xs
    if x = c then [] :: rest
    else
      match rest with
      | [] => [[x]]
      | r :: rs => (x :: r) :: rs

/-- `url.split('/')[-1].split('?')[0]` (lines 101 and 378). -/
def derivedFilename (url : String) : String :=
  ⟨(splitOnChar '?' ((splitOnChar '/' url.toList).getLastD [])).headD []⟩

/-! ## Supplied-asset validation (lines 130-144)

The relevant filesystem state is the user-supplied folder: whether the
path exists, whether it is a directory, and what kind of entry (if any)
sits directly under it at each name.  `Path.exists()` is true for every
entry kind; `Path.is_file()` would be true only for regular files. -/

inductive EntryKind
  | file
  | directory
  deriving DecidableEq

structure Folder where
  present : Bool
  isDirectory : Bool
  child : String → Option EntryKind

/-- `(folder / file).exists()`: true for any entry kind at that name. -/
def Folder.childExists (folder : Folder) (name : String) : Bool :=
  (folder.child name).isSome

/-- The `missing_files` list built at lines 136-139, in expected-list order. -/
def missingFiles (folder : Folder) (expected : List String) : List String :=
  expected.filter (fun f => !folder.childExists f)

/-- `validate_user_supplied_files(folder_path, expected_files)` (lines 130-144):
returns `(False, msg)` when the folder is absent or not a directory, or when
any expected file is missing directly under it; `(True, msg)` otherwise. -/
def validate_user_supplied_files (folder : Folder) (expected : List String) :
    Bool × String :=
  if !folder.present || !folder.isDirectory then
    (false, "Folder does not exist or is not a directory")
  else
    let missing := missingFiles folder expected
    if missing.isEmpty then
      (true, "All files present")
    else
      (false, "Missing files: " ++ String.intercalate ", " missing)

/-! ## Interactive choice collection (lines 110-128)

`get_user_choice` loops over console input.  We embed the console as a
list of input events: each `input()` call either yields a line or raises
`KeyboardInterrupt`.  `sys.exit(0)` is the `exited 0` outcome.  Python's
`str.strip()` and `int()` are embedded character by character below
(`int()`'s underscore digit grouping and non-ASCII numerals are not
modelled; that difference cannot affect the range guard). -/

/-- Python `s.strip()`: remove whitespace from both ends. -/
def pyStrip (s : String) : String :=
  ⟨((s.toList.dropWhile Char.isWhitespace).reverse.dropWhile
      Char.isWhitespace).reverse⟩

/-- Decimal digit accumulation for `int()`: consumes the remaining
characters, failing on the first non-digit. -/
def parseDigits : List Char → Nat → Option Nat
  | [], acc => some acc
  | c :: cs, acc =>
    if c.isDigit then parseDigits cs (acc * 10 + (c.toNat - 48))
    else none

/-- Python `int(s)` on an already-stripped string: an optional sign
followed by one or more decimal digits; anything else raises
`ValueError`, modelled as `none`. -/
def pyInt (s : String) : Option Int :=
  match s.toList with
  | [] => none
  | '-' :: [] => none
  | '-' :: rest => (parseDigits rest 0).map (fun n => -(n : Int))
  | '+' :: [] => none
  | '+' :: rest => (parseDigits rest 0).map (fun n => (n : Int))
  | l => (parseDigits l 0).map (fun n => (n : Int))

inductive InputEvent
  | line : String → InputEvent
  | interrupt : InputEvent

inductive ChoiceOutcome
  | choice : Nat → ChoiceOutcome
  | exited : Nat → ChoiceOutcome
  deriving DecidableEq

/-- `get_user_choice(prompt, options)` (lines 110-128): re-prompts on
non-numeric and out-of-range input, returns the 1-based index on valid
input, exits with status 0 on `KeyboardInterrupt`.  `none` means the
event stream ran out while the loop was still waiting for input. -/
def get_user_choice (prompt : String) (options : List String) :
    List InputEvent → Option ChoiceOutcome
  | [] => none
  | InputEvent.interrupt :: _ => some (ChoiceOutcome.exited 0)
  | InputEvent.line s :: rest =>
    match pyInt (pyStrip s) with
    | none => get_user_choice prompt options rest
    | some n =>
      if 1 ≤ n ∧ n ≤ (options.length : Int) then
        some (ChoiceOutcome.choice n.toNat)
      else
        get_user_choice prompt options rest

/-! ## Environment setup and re-exec (lines 251-272)

The state visible to Step 3 is whether the venv root exists and the
resolved path of the interpreter currently executing the script
(`Path(sys.executable).resolve()`).  Paths are modelled already resolved.
`os.execv` does not return: it replaces the process, which re-runs the
script from the top inside the venv, so the post-state of a re-exec has
the venv interpreter as the current interpreter. -/

structure EnvState where
  venvExists : Bool
  currentExe : String
  deriving DecidableEq

structure EnsureResult where
  createdVenv : Bool
  reexeced : Bool
  state : EnvState
  deriving DecidableEq

/-- Step 3 (lines 262-272): create the venv directory if absent, then
re-exec into the venv interpreter when the current interpreter differs
from it.  `pythonExe` is the resolved `PYTHON_EXE` for the host OS.
`reexeced = true` means the call did not return: `os.execv` replaced the
process and the script restarts inside the venv. -/
def ensureEnvironment (pythonExe : String) (s : EnvState) : EnsureResult :=
  let s₁ : EnvState :=
    if s.venvExists then s else { s with venvExists := true }
  if s₁.currentExe ≠ pythonExe then
    { createdVenv := !s.venvExists, reexeced := true,
      state := { s₁ with currentExe := pythonExe } }
  else
    { createdVenv := !s.venvExists, reexeced := false, state := s₁ }

/-! ## Backend validation (lines 159-163 and 237-243)

`main` first rejects any OS outside {"windows", "linux"} with
`sys.exit(1)`; after the backend menu it rejects the pair
(choice 2 = ROCm, OS ≠ "linux") with `sys.exit(1)`.  `Except.error n`
models `sys.exit(n)`. -/

/-- Backend validation (lines 238-241): `sys.exit(1)` iff ROCm was chosen
on a non-Linux host. -/
def validateBackendChoice (os : String) (backend_choice : Nat) : Except Nat Unit :=
  if backend_choice == 2 && os != "linux" then Except.error 1
  else Except.ok ()

/-! ## Package installation (lines 83-97, 286-354)

Each `run(cmd)` issued by `pip_install` either succeeds or raises
`CalledProcessError`; the environment's responses are an oracle.
`pip_install` retries the identical command exactly once and lets a
second failure propagate as an exception (`Except.error`). -/

inductive InstallOutcome
  | installed
  | installedAfterRetry
  | failed
  deriving DecidableEq

/-- `pip_install(*args)` (lines 83-97): run the pip command; on failure
warn and retry once with the identical command; a second failure
propagates.  `firstOk`/`retryOk` are the environment's responses to the
two possible `run(cmd)` calls. -/
def pip_install (firstOk retryOk : Bool) : Except Unit InstallOutcome :=
  if firstOk then Except.ok InstallOutcome.installed
  else if retryOk then Except.ok InstallOutcome.installedAfterRetry
  else Except.error ()

/-- The `dependencies` list of Step 5 (lines 328-346). -/
def dependencies : List String := [
  "numpy>=1.24.0,<1.26.0", "librosa==0.11.0", "safetensors==0.5.3",
  "huggingface_hub>=0.23.2,<1.0", "transformers==4.46.3", "diffusers==0.29.0",
  "einops", "s3tokenizer", "conformer==0.3.2", "resemble-perth==1.0.1",
  "pykakasi==2.3.0", "gradio==5.44.1", "soundfile>=0.12.1", "audioread>=2.1.9",
  "omegaconf>=2.3.0", "pyloudnorm", "spacy-pkuseg"
]

/-- The Step 5 dependency loop (lines 348-354): each `pip_install(dep)` is
wrapped in `try/except Exception`, so a double failure is recorded as
`failed` and the loop continues with the next dependency.  `oracle i`
gives the environment's two `run` responses for the i-th dependency. -/
def installDependencies (oracle : Nat → Bool × Bool) :
    List String → Nat → List (String × InstallOutcome)
  | [], _ => []
  | dep :: rest, i =>
    match pip_install (oracle i).1 (oracle i).2 with
    | Except.ok o => (dep, o) :: installDependencies oracle rest (i + 1)
    | Except.error _ =>
        (dep, InstallOutcome.failed) :: installDependencies oracle rest (i + 1)

/-- Steps 4-5 (lines 286-354): the PyTorch stack install (lines 288, 293,
298) and the `chatterbox-tts` install (line 325) call `pip_install` with
no surrounding `try`, so a double failure there propagates out of `main`
and the run aborts (entry point, lines 459-469, exits 1).  For the CUDA
backend only (choice 3), the optional flash-attention install
(lines 312-317) is wrapped in `try/except Exception`: its double failure
is caught and logged as a warning (`none` when the backend is not CUDA,
`some failed` when the guarded install failed twice).  Then the guarded
dependency loop of Step 5 runs. -/
def installStage (backend_choice : Nat) (torch flash chatterbox : Bool × Bool)
    (oracle : Nat → Bool × Bool) :
    Except Unit (InstallOutcome × Option InstallOutcome × InstallOutcome ×
      List (String × InstallOutcome)) := do
  let torchOutcome ← pip_install torch.1 torch.2
  let flashOutcome : Option InstallOutcome ←
    if backend_choice = 3 then
      match pip_install flash.1 flash.2 with
      | Except.ok o => pure (some o)
      | Except.error _ => pure (some InstallOutcome.failed)
    else pure none
  let chatterboxOutcome ← pip_install chatterbox.1 chatterbox.2
  Except.ok (torchOutcome, flashOutcome, chatterboxOutcome,
    installDependencies oracle dependencies 0)

/-! ## Asset acquisition, download mode (lines 374-383)

State: which filenames are present in the model directory
(`dest.exists()`).  For each locator the loop derives the filename,
skips the entry when the destination exists, and otherwise calls
`download_file`, which re-raises any fetch failure (lines 99-108), making
it fatal for the run.  A successful fetch makes the file present. -/

inductive FetchAction
  | fetched : String → FetchAction
  | skipped : String → FetchAction
  deriving DecidableEq

/-- The download loop (lines 376-383).  `fetchOk url` is the network's
response to a `download_file` call for `url`.  Returns the ordered action
trace on success and the failing filename on a fatal fetch error. -/
def downloadModelFiles (fetchOk : String → Bool) :
    List String → (String → Bool) → Except String (List FetchAction)
  | [], _ => Except.ok []
  | url :: rest, present =>
    let filename := derivedFilename url
    if present filename then
      Except.map (fun l => FetchAction.skipped filename :: l)
        (downloadModelFiles fetchOk rest present)
    else if fetchOk url then
      Except.map (fun l => FetchAction.fetched filename :: l)
        (downloadModelFiles fetchOk rest (fun n => n == filename || present n))
    else Except.error filename

/-! ## Asset acquisition, user-supplied mode (lines 364-373)

For each expected filename: if the file exists in the validated source
folder it is copied with `shutil.copy2`, which overwrites any existing
destination file; there is no destination-existence check and no skip
branch other than source absence.  `src` maps a filename to the contents
found in the source folder (if present) and `dst` is the model
directory's contents, threaded through the copies. -/

/-- The user-supplied copy loop (lines 367-372): returns the final model
directory contents and the ordered list of copied filenames. -/
def copyUserSuppliedFiles (src : String → Option String) :
    List String → (String → Option String) → (String → Option String) × List String
  | [], dst => (dst, [])
  | f :: rest, dst =>
    match src f with
    | some contents =>
      let r := copyUserSuppliedFiles src rest
        (fun n => if n = f then some contents else dst n)
      (r.1, f :: r.2)
    | none => copyUserSuppliedFiles src rest dst

/-! ## Theorems -/

/-- C1: environment-ensure is a no-op on re-entry.  On any state, the venv
is created exactly when its root is absent, a re-exec (a call that does
not return) happens exactly when the resolved current interpreter differs
from the venv interpreter, and running the step again from the state it
produces creates nothing, re-execs nothing, and leaves the state fixed. -/
theorem c1_ensure_environment_reentry_noop (pythonExe : String) (s : EnvState) :
    ((ensureEnvironment pythonExe s).createdVenv = !s.venvExists) ∧
    ((ensureEnvironment pythonExe s).reexeced = true ↔ s.currentExe ≠ pythonExe) ∧
    (ensureEnvironment pythonExe (ensureEnvironment pythonExe s).state =
      { createdVenv := false, reexeced := false,
        state := (ensureEnvironment pythonExe s).state }) := by
  unfold ensureEnvironment
  by_cases hv : s.venvExists <;> by_cases he : s.currentExe = pythonExe <;>
    simp [hv, he]

/-- C3 counterexample: `ORIGINAL_EXPECTED` and `TURBO_EXPECTED` are not
disjoint — the filename `s3gen.safetensors` occurs in both. -/
theorem c3_expected_sets_share_a_name :
    "s3gen.safetensors" ∈ ORIGINAL_EXPECTED ∧ "s3gen.safetensors" ∈ TURBO_EXPECTED := by
  decide

/-- C3 amended: the expected-filename sets of the two variants overlap in
exactly `s3gen.safetensors` and `ve.safetensors`; every other expected
filename is unique to its variant. -/
theorem c3_expected_sets_overlap_exactly_two :
    ORIGINAL_EXPECTED.filter (fun n => TURBO_EXPECTED.contains n) =
      ["s3gen.safetensors", "ve.safetensors"] ∧
    TURBO_EXPECTED.filter (fun n => ORIGINAL_EXPECTED.contains n) =
      ["s3gen.safetensors", "ve.safetensors"] := by
  decide

/-- C6: every locator derives exactly one filename, which is an expected
filename of its variant; the derived names of `ORIGINAL_FILES` equal
`ORIGINAL_EXPECTED` entry for entry, and the derived names of
`TURBO_FILES` are exactly the names of `TURBO_EXPECTED` with the same
multiplicities (the Turbo lists order them differently). -/
theorem c6_manifest_filename_correspondence :
    (∀ url ∈ ORIGINAL_FILES, derivedFilename url ∈ ORIGINAL_EXPECTED) ∧
    (∀ url ∈ TURBO_FILES, derivedFilename url ∈ TURBO_EXPECTED) ∧
    ORIGINAL_FILES.map derivedFilename = ORIGINAL_EXPECTED ∧
    (TURBO_FILES.map derivedFilename).Perm TURBO_EXPECTED := by
  refine ⟨by decide, by decide, by decide, by decide⟩

/-- C7: choosing the ROCm backend (choice 2) on a supported non-Linux host
is the one fatal configuration error of backend selection, exiting with
status 1; every other supported host/backend pair passes validation. -/
theorem c7_rocm_requires_linux (os : String) (backend_choice : Nat)
    (hos : os = "windows" ∨ os = "linux")
    (hc : backend_choice = 1 ∨ backend_choice = 2 ∨ backend_choice = 3) :
    (validateBackendChoice os backend_choice = Except.error 1 ↔
      (backend_choice = 2 ∧ os ≠ "linux")) ∧
    (¬(backend_choice = 2 ∧ os ≠ "linux") →
      validateBackendChoice os backend_choice = Except.ok ()) := by
  rcases hos with h | h <;> rcases hc with h2 | h2 | h2 <;> subst h <;> subst h2 <;>
    simp [validateBackendChoice]

/-- C7 witness: ROCm on Windows is rejected with exit status 1, while CUDA
on Windows and ROCm on Linux both pass. -/
theorem c7_rocm_requires_linux_witness :
    validateBackendChoice "windows" 2 = Except.error 1 ∧
    validateBackendChoice "windows" 3 = Except.ok () ∧
    validateBackendChoice "linux" 2 = Except.ok () := by
  refine ⟨(c7_rocm_requires_linux "windows" 2 (Or.inl rfl)
      (Or.inr (Or.inl rfl))).1.mpr ⟨rfl, by decide⟩,
    (c7_rocm_requires_linux "windows" 3 (Or.inl rfl)
      (Or.inr (Or.inr rfl))).2 (by simp),
    (c7_rocm_requires_linux "linux" 2 (Or.inr rfl)
      (Or.inr (Or.inl rfl))).2 (by simp)⟩

/-- A concrete folder whose children are all directories: each expected
name of the Standard variant is a subdirectory, no name is a regular file. -/
def directoriesOnlyFolder : Folder where
  present := true
  isDirectory := true
  child := fun n =>
    if ORIGINAL_EXPECTED.contains n then some EntryKind.directory else none

/-- C9: validation tests only `Path.exists()`, which any entry kind
satisfies — a directory child counts as present — so a folder containing a
subdirectory (and no regular file) at every expected name validates Ok. -/
theorem c9_validation_ignores_entry_kind :
    (∀ (folder : Folder) (f : String),
      folder.child f = some EntryKind.directory → folder.childExists f = true) ∧
    (∀ n, directoriesOnlyFolder.child n ≠ some EntryKind.file) ∧
    (validate_user_supplied_files directoriesOnlyFolder ORIGINAL_EXPECTED).1 = true := by
  refine ⟨fun folder f h => by simp [Folder.childExists, h], fun n => ?_, by decide⟩
  simp only [directoriesOnlyFolder]
  split <;> simp

/-- C4: validation returns Ok exactly when the folder exists, is a
directory, and every expected filename exists directly under it; the
missing-files list is an order-preserving sublist of the expected list
holding exactly the expected names with no entry under the folder. -/
theorem c4_validate_user_supplied_files_spec (folder : Folder) (expected : List String) :
    ((validate_user_supplied_files folder expected).1 = true ↔
      (folder.present = true ∧ folder.isDirectory = true ∧
        ∀ f ∈ expected, folder.childExists f = true)) ∧
    (missingFiles folder expected).Sublist expected ∧
    (∀ f, f ∈ missingFiles folder expected ↔
      (f ∈ expected ∧ folder.childExists f = false)) := by
  refine ⟨?_, List.filter_sublist expected, fun f => ?_⟩
  · unfold validate_user_supplied_files
    by_cases hp : folder.present <;> by_cases hd : folder.isDirectory <;>
      simp [hp, hd, missingFiles, List.isEmpty_iff, List.filter_eq_nil_iff]
    split <;> simp_all
  · simp [missingFiles, List.mem_filter]

/-- C5: download-mode acquisition is idempotent per manifest entry — when
every locator's derived destination file is already present, the loop
emits one skip per entry, performs zero fetch calls, and succeeds. -/
theorem c5_download_all_present_skips (fetchOk present : String → Bool)
    (files : List String)
    (h : ∀ url ∈ files, present (derivedFilename url) = true) :
    downloadModelFiles fetchOk files present =
      Except.ok (files.map fun url => FetchAction.skipped (derivedFilename url)) := by
  induction files with
  | nil => rfl
  | cons url rest ih =>
    have h1 : present (derivedFilename url) = true := h url (by simp)
    simp [downloadModelFiles, h1, Except.map,
      ih fun u hu => h u (by simp [hu])]

/-- C5 witness: with every Standard-variant file already present, the
download stage succeeds with a trace of four skips and calls the fetch
capability zero times — even against a network where every fetch fails. -/
theorem c5_download_all_present_skips_witness :
    downloadModelFiles (fun _ => false) ORIGINAL_FILES
        (fun n => ORIGINAL_EXPECTED.contains n) =
      Except.ok (ORIGINAL_FILES.map fun url =>
        FetchAction.skipped (derivedFilename url)) :=
  c5_download_all_present_skips _ _ _ (by decide)

/-- C8: the menu primitive only ever returns a 1-based index within
`1..options.length`; a keyboard interrupt at the prompt exits immediately
with status 0; non-numeric input and out-of-range numbers each re-prompt
(the call behaves as if that input event had not happened). -/
theorem c8_get_user_choice_spec (prompt : String) (options : List String)
    (_hne : options ≠ []) :
    (∀ events n,
      get_user_choice prompt options events = some (ChoiceOutcome.choice n) →
      1 ≤ n ∧ n ≤ options.length) ∧
    (∀ events, get_user_choice prompt options (InputEvent.interrupt :: events) =
      some (ChoiceOutcome.exited 0)) ∧
    (∀ s events, pyInt (pyStrip s) = none →
      get_user_choice prompt options (InputEvent.line s :: events) =
        get_user_choice prompt options events) ∧
    (∀ s n events, pyInt (pyStrip s) = some n →
      ¬(1 ≤ n ∧ n ≤ (options.length : Int)) →
      get_user_choice prompt options (InputEvent.line s :: events) =
        get_user_choice prompt options events) := by
  refine ⟨fun events => ?_, fun events => rfl,
    fun s events hs => by simp [get_user_choice, hs],
    fun s n events hs hn => by simp [get_user_choice, hs, hn]⟩
  induction events with
  | nil => intro n h; simp [get_user_choice] at h
  | cons e rest ih =>
    intro n h
    cases e with
    | interrupt => simp [get_user_choice] at h
    | line s =>
      rw [get_user_choice] at h
      cases hs : pyInt (pyStrip s) with
      | none => simp only [hs] at h; exact ih n h
      | some m =>
        simp only [hs] at h
        by_cases hm : 1 ≤ m ∧ m ≤ (options.length : Int)
        · rw [if_pos hm] at h
          have hn : n = m.toNat := by
            have := h
            simp at this
            omega
          subst hn
          omega
        · rw [if_neg hm] at h; exact ih n h

/-- C8 witness: on the three-option backend menu, the inputs "abc" and
"9" re-prompt and "2" is accepted, an index within 1..3; an interrupt at
the prompt exits with status 0. -/
theorem c8_get_user_choice_spec_witness :
    (1 ≤ 2 ∧ 2 ≤ 3) ∧
    get_user_choice "" ["CPU", "AMD (ROCm)", "Nvidia (CUDA)"]
        [InputEvent.interrupt] = some (ChoiceOutcome.exited 0) :=
  ⟨(c8_get_user_choice_spec "" ["CPU", "AMD (ROCm)", "Nvidia (CUDA)"]
        (by decide)).1
      [InputEvent.line "abc", InputEvent.line "9", InputEvent.line "2"] 2
      (by decide),
    (c8_get_user_choice_spec "" ["CPU", "AMD (ROCm)", "Nvidia (CUDA)"]
        (by decide)).2.1 []⟩

/-- The filenames copied by the user-supplied copy loop are exactly the
expected filenames present at the source, independent of the destination
directory's contents. -/
theorem copyUserSuppliedFiles_copied (src : String → Option String)
    (expected : List String) (dst : String → Option String) :
    (copyUserSuppliedFiles src expected dst).2 =
      expected.filter fun f => (src f).isSome := by
  induction expected generalizing dst with
  | nil => rfl
  | cons f rest ih =>
    cases hf : src f <;>
      simp [copyUserSuppliedFiles, hf, ih, List.filter_cons]

/-- After the user-supplied copy loop, a name holds the source contents
when the name is expected and present at the source, and is untouched
otherwise — each copy overwrites whatever the destination held. -/
theorem copyUserSuppliedFiles_contents (src : String → Option String)
    (expected : List String) (dst : String → Option String) (n : String) :
    (copyUserSuppliedFiles src expected dst).1 n =
      if n ∈ expected ∧ (src n).isSome = true then src n else dst n := by
  induction expected generalizing dst with
  | nil => simp [copyUserSuppliedFiles]
  | cons f rest ih =>
    cases hf : src f with
    | none =>
      simp only [copyUserSuppliedFiles, hf]
      rw [ih]
      by_cases hn : n = f
      · subst hn; simp [hf]
      · simp [hn]
    | some c =>
      simp only [copyUserSuppliedFiles, hf]
      rw [ih]
      by_cases hn : n = f
      · subst hn; simp [hf]
      · simp [hn]

/-- C10: in user-supplied mode the copy stage copies every expected file
present at the validated source, in manifest order, regardless of what the
model directory already contains — the copied set is the same for any two
destination states, and each copied name ends up holding the source
contents, overwriting any prior destination file of that name. -/
theorem c10_copy_stage_overwrites_unconditionally
    (src dst dstAlt : String → Option String) (expected : List String) :
    ((copyUserSuppliedFiles src expected dst).2 =
      expected.filter fun f => (src f).isSome) ∧
    ((copyUserSuppliedFiles src expected dst).2 =
      (copyUserSuppliedFiles src expected dstAlt).2) ∧
    (∀ f ∈ expected, (src f).isSome = true →
      (copyUserSuppliedFiles src expected dst).1 f = src f) := by
  refine ⟨copyUserSuppliedFiles_copied src expected dst, ?_, fun f hf hs => ?_⟩
  · rw [copyUserSuppliedFiles_copied, copyUserSuppliedFiles_copied]
  · rw [copyUserSuppliedFiles_contents]
    simp [hf, hs]

/-- C2 counterexample: not every package install request tolerates a
double failure.  The Step 4 PyTorch install calls `pip_install` with no
surrounding `try`, so when both its attempts fail (here on the CPU
backend, choice 1) the error propagates out of `main` (where the entry
point exits with status 1) — the run aborts even though every later
install would have succeeded. -/
theorem c2_unguarded_install_aborts_run :
    installStage 1 (false, false) (true, true) (true, true)
      (fun _ => (true, true)) = Except.error () := rfl

/-- Outcome of one `pip_install` call as classified by the source's retry
logic, from the environment's responses to its (at most) two run calls. -/
def retryOutcome (responses : Bool × Bool) : InstallOutcome :=
  if responses.1 then InstallOutcome.installed
  else if responses.2 then InstallOutcome.installedAfterRetry
  else InstallOutcome.failed

theorem installDependencies_length (oracle : Nat → Bool × Bool)
    (deps : List String) (start : Nat) :
    (installDependencies oracle deps start).length = deps.length := by
  induction deps generalizing start with
  | nil => rfl
  | cons dep rest ih =>
    rw [installDependencies]
    cases h : pip_install (oracle start).1 (oracle start).2 <;>
      simp [List.length_cons, ih]

theorem installDependencies_getD (oracle : Nat → Bool × Bool)
    (deps : List String) (start i : Nat) (hi : i < deps.length) :
    (installDependencies oracle deps start).getD i ("", InstallOutcome.failed) =
      (deps.getD i "", retryOutcome (oracle (start + i))) := by
  induction deps generalizing start i with
  | nil => simp at hi
  | cons dep rest ih =>
    rw [installDependencies]
    cases i with
    | zero =>
      cases hfst : (oracle start).1 <;> cases hsnd : (oracle start).2 <;>
        simp [pip_install, retryOutcome, hfst, hsnd]
    | succ j =>
      have hj : j < rest.length := by simpa using hi
      have step : start + 1 + j = start + (j + 1) := by omega
      cases h : pip_install (oracle start).1 (oracle start).2 <;>
        simpa [step] using ih (start + 1) j hj

/-- C2 amended: `pip_install` retries a failed install exactly once with
the identical command and raises on a second failure.  Inside the Step 5
dependency loop that exception is caught, so every dependency in the list
is processed — a first-try success is `installed`, a fail-then-succeed is
`installedAfterRetry`, and a double failure is recorded as `failed`
without aborting the loop.  The optional CUDA flash-attention install is
likewise guarded: its double failure is caught, recorded as a warning,
and the run proceeds.  The remaining install requests (the PyTorch stack,
`chatterbox-tts`) are unguarded, and a double failure there aborts the
run. -/
theorem c2_dependency_loop_retry_policy (oracle : Nat → Bool × Bool)
    (i : Nat) (hi : i < dependencies.length) :
    (∀ r, pip_install true r = Except.ok InstallOutcome.installed) ∧
    pip_install false true = Except.ok InstallOutcome.installedAfterRetry ∧
    pip_install false false = Except.error () ∧
    (∀ r rFlash : Bool,
      installStage 3 (true, r) (false, false) (true, rFlash) oracle =
        Except.ok (InstallOutcome.installed, some InstallOutcome.failed,
          InstallOutcome.installed, installDependencies oracle dependencies 0)) ∧
    (installDependencies oracle dependencies 0).length = dependencies.length ∧
    (installDependencies oracle dependencies 0).getD i ("", InstallOutcome.failed) =
      (dependencies.getD i "", retryOutcome (oracle i)) := by
  refine ⟨fun r => rfl, rfl, rfl, fun r rFlash => rfl,
    installDependencies_length oracle dependencies 0, ?_⟩
  simpa using installDependencies_getD oracle dependencies 0 i hi

/-- C2 amended, witness: with an environment that fails both attempts for
the fourth dependency and succeeds after one retry for the fifth, the
loop still processes all 17 dependencies, records `failed` for the
fourth and `installedAfterRetry` for the fifth; and on the CUDA backend a
flash-attention install failing both attempts is caught — the stage still
succeeds, with the warning recorded. -/
theorem c2_dependency_loop_retry_policy_witness :
    ((installDependencies
        (fun i => (decide (i ≠ 3) && decide (i ≠ 4), decide (i ≠ 3)))
        dependencies 0).length = dependencies.length) ∧
    ((installDependencies
        (fun i => (decide (i ≠ 3) && decide (i ≠ 4), decide (i ≠ 3)))
        dependencies 0).getD 3 ("", InstallOutcome.failed) =
      ("huggingface_hub>=0.23.2,<1.0", InstallOutcome.failed)) ∧
    ((installDependencies
        (fun i => (decide (i ≠ 3) && decide (i ≠ 4), decide (i ≠ 3)))
        dependencies 0).getD 4 ("", InstallOutcome.failed) =
      ("transformers==4.46.3", InstallOutcome.installedAfterRetry)) ∧
    (installStage 3 (true, true) (false, false) (true, true)
        (fun i => (decide (i ≠ 3) && decide (i ≠ 4), decide (i ≠ 3))) =
      Except.ok (InstallOutcome.installed, some InstallOutcome.failed,
        InstallOutcome.installed,
        installDependencies
          (fun i => (decide (i ≠ 3) && decide (i ≠ 4), decide (i ≠ 3)))
          dependencies 0)) := by
  refine ⟨(c2_dependency_loop_retry_policy
      (fun i => (decide (i ≠ 3) && decide (i ≠ 4), decide (i ≠ 3)))
      3 (by decide)).2.2.2.2.1, ?_, ?_,
    (c2_dependency_loop_retry_policy
      (fun i => (decide (i ≠ 3) && decide (i ≠ 4), decide (i ≠ 3)))
      3 (by decide)).2.2.2.1 true true⟩
  · rw [(c2_dependency_loop_retry_policy
        (fun i => (decide (i ≠ 3) && decide (i ≠ 4), decide (i ≠ 3)))
        3 (by decide)).2.2.2.2.2]
    decide
  · rw [(c2_dependency_loop_retry_policy
        (fun i => (decide (i ≠ 3) && decide (i ≠ 4), decide (i ≠ 3)))
        4 (by decide)).2.2.2.2.2]
    decide
